import Mathlib

/-!
Verification development for the Hyperliquid trading-dashboard data layer.

The definitions below are a shallow embedding of the TypeScript source:
JSON values and `JSON.parse` / `JSON.stringify` (used by the wire codec and
the subscription-key machinery), the account-state data model of
`hyperliquidTypes.ts`, the reconciliation updater of `MainView.tsx`, the
reconnect backoff and the resubscription replay loop of the WebSocket
service, `isPongMessage` and `processMidPricesMessage` of
`hyperliquidService.ts`, the REST baseline fetch functions, and the
subscribe/unsubscribe registry operations.
-/

/-- A JSON value, as produced by `JSON.parse`.  Numbers are modelled as
rationals (JS number equality on the values that occur here), objects as
association lists in insertion order. -/
inductive Jv where
  | null : Jv
  | bool (b : Bool) : Jv
  | num (q : ℚ) : Jv
  | str (s : String) : Jv
  | arr (items : List Jv) : Jv
  | obj (fields : List (String × Jv)) : Jv

namespace Jv

/-- Field lookup on a JSON value: `v[k]` for an object.  For the property
names used by this code base (`channel`, `data`, `mids`, `type`, `user`,
`crossMarginSummary`, ...) an array or primitive yields `undefined`, which
we model as `none`. -/
def getField : Jv → String → Option Jv
  | obj fields, k => fields.lookup k
  | _, _ => none

/-- JS `k in v`: does the object have the property (even with value
`null`)? -/
def hasField (v : Jv) (k : String) : Bool :=
  (v.getField k).isSome

/-- JS `v != null && typeof v === 'object'` (arrays included). -/
def isObjectLike : Jv → Bool
  | obj _ => true
  | arr _ => true
  | _ => false

/-- JS truthiness of a property access result (`undefined`, `null`, `''`,
`0` and `false` are falsy). -/
def truthy : Option Jv → Bool
  | none => false
  | some null => false
  | some (bool b) => b
  | some (num q) => q != 0
  | some (str s) => s != ""
  | some (arr _) => true
  | some (obj _) => true

/-- JS object spread `\x7b ...v \x7d`: an object contributes its fields, a
string contributes index-keyed one-character strings, other primitives
contribute nothing. -/
def spreadFields : Jv → List (String × Jv)
  | obj fields => fields
  | str s => (s.toList.enum.map fun p => (toString p.1, str (String.mk [p.2])))
  | arr items => (items.enum.map fun p => (toString p.1, p.2))
  | _ => []

end Jv

/-! ### JSON.parse

A fuel-indexed recursive-descent parser, total by construction.  It
accepts the JSON actually exchanged by this program (strings with the
common escapes, objects, arrays, integers and decimal fractions, `true`,
`false`, `null`) and fails — as `JSON.parse` throws — on anything else,
in particular on the bare word `pong` and on truncated object text such
as `\x7b"user"`. -/

/-- Skip JSON whitespace. -/
def jsonSkipWs : List Char → List Char
  | c :: rest =>
    if c = ' ' ∨ c = '\n' ∨ c = '\t' ∨ c = '\r' then jsonSkipWs rest else c :: rest
  | [] => []

/-- Parse the body of a JSON string literal (after the opening quote),
returning the decoded string and the remaining input. -/
def jsonParseStringBody : List Char → Option (String × List Char)
  | [] => none
  | '"' :: rest => some ("", rest)
  | '\\' :: e :: rest => do
    let c ← match e with
      | '"' => some '"'
      | '\\' => some '\\'
      | '/' => some '/'
      | 'n' => some '\n'
      | 't' => some '\t'
      | 'r' => some '\r'
      | _ => none
    let (s, rem) ← jsonParseStringBody rest
    pure (String.mk (c :: s.toList), rem)
  | '\\' :: [] => none
  | c :: rest => do
    let (s, rem) ← jsonParseStringBody rest
    pure (String.mk (c :: s.toList), rem)

/-- Parse a run of decimal digits into its value and length. -/
def jsonParseDigits : List Char → Option (ℕ × ℕ × List Char)
  | c :: rest =>
    if c.isDigit then
      match jsonParseDigits rest with
      | some (v, n, rem) => some (v + c.toNat.sub 48 * 10 ^ n, n + 1, rem)
      | none => some (c.toNat.sub 48, 1, rest)
    else none
  | [] => none

/-- Parse a JSON number (optional minus sign, integer part, optional
fraction; exponents are not produced by this program's peers). -/
def jsonParseNumber (cs : List Char) : Option (ℚ × List Char) := do
  let (neg, cs) := match cs with
    | '-' :: rest => (true, rest)
    | _ => (false, cs)
  let (ip, _, cs) ← jsonParseDigits cs
  let (q, cs) ← match cs with
    | '.' :: rest => do
        let (fp, n, rem) ← jsonParseDigits rest
        pure (((ip : ℚ) + (fp : ℚ) / (10 : ℚ) ^ n), rem)
    | _ => pure ((ip : ℚ), cs)
  pure (if neg then -q else q, cs)

mutual

/-- Parse one JSON value. -/
def jsonParseValue : ℕ → List Char → Option (Jv × List Char)
  | 0, _ => none
  | fuel + 1, cs =>
    match jsonSkipWs cs with
    | '"' :: rest => (jsonParseStringBody rest).map fun p => (Jv.str p.1, p.2)
    | '{' :: rest =>
      match jsonSkipWs rest with
      | '}' :: rem => some (Jv.obj [], rem)
      | rest' => (jsonParseMembers fuel rest').map fun p => (Jv.obj p.1, p.2)
    | '[' :: rest =>
      match jsonSkipWs rest with
      | ']' :: rem => some (Jv.arr [], rem)
      | rest' => (jsonParseItems fuel rest').map fun p => (Jv.arr p.1, p.2)
    | 't' :: 'r' :: 'u' :: 'e' :: rest => some (Jv.bool true, rest)
    | 'f' :: 'a' :: 'l' :: 's' :: 'e' :: rest => some (Jv.bool false, rest)
    | 'n' :: 'u' :: 'l' :: 'l' :: rest => some (Jv.null, rest)
    | cs' => (jsonParseNumber cs').map fun p => (Jv.num p.1, p.2)

/-- Parse the members of a JSON object (after `\x7b`), up to and including
the closing brace. -/
def jsonParseMembers : ℕ → List Char → Option (List (String × Jv) × List Char)
  | 0, _ => none
  | fuel + 1, cs => do
    let cs := jsonSkipWs cs
    let (k, cs) ← match cs with
      | '"' :: rest => jsonParseStringBody rest
      | _ => none
    let cs := jsonSkipWs cs
    let cs ← match cs with
      | ':' :: rest => some rest
      | _ => none
    let (v, cs) ← jsonParseValue fuel cs
    match jsonSkipWs cs with
    | ',' :: rest => do
        let (fields, rem) ← jsonParseMembers fuel rest
        pure ((k, v) :: fields, rem)
    | '}' :: rest => pure ([(k, v)], rest)
    | _ => none

/-- Parse the items of a JSON array (after `[`), up to and including the
closing bracket. -/
def jsonParseItems : ℕ → List Char → Option (List Jv × List Char)
  | 0, _ => none
  | fuel + 1, cs => do
    let (v, cs) ← jsonParseValue fuel cs
    match jsonSkipWs cs with
    | ',' :: rest => do
        let (items, rem) ← jsonParseItems fuel rest
        pure (v :: items, rem)
    | ']' :: rest => pure ([v], rest)
    | _ => none

end

/-- `JSON.parse`: parse a complete JSON text; `none` models a thrown
`SyntaxError` (invalid prefix or trailing garbage). -/
def jsonParse (s : String) : Option Jv :=
  match jsonParseValue (s.length + 2) s.toList with
  | some (v, rest) => if jsonSkipWs rest = [] then some v else none
  | none => none

/-! ### JSON.stringify -/

/-- Escape a string for inclusion in a JSON text (the escapes this
program's strings can need). -/
def jsonEscape (s : String) : String :=
  s.toList.foldr
    (fun c acc =>
      (match c with
        | '"' => "\\\""
        | '\\' => "\\\\"
        | '\n' => "\\n"
        | '\t' => "\\t"
        | '\r' => "\\r"
        | _ => String.mk [c]) ++ acc)
    ""

/-- `JSON.stringify` of a flat object whose values are strings — the shape
of every `params` object this code passes to `subscribeToChannel`
(`\x7b\x7d` and `\x7buser: address\x7d`). -/
def jsonStringifyFlat (fields : List (String × String)) : String :=
  "\x7b" ++ String.intercalate ","
      (fields.map fun kv => "\"" ++ jsonEscape kv.1 ++ "\":\"" ++ jsonEscape kv.2 ++ "\"")
    ++ "\x7d"

/-! ### Wire codec and subscription registry

From the WebSocket service revision (`initializeWebSocket`,
`subscribeToChannel`, `subscribeToUserState`).  The registry
`websocketSubscriptions` is a `Map<string, callback>`; we model callbacks
by numeric identifiers. -/

/-- An outbound wire frame
(`\x7bmethod, subscription: \x7btype, ...params\x7d\x7d`). -/
inductive WireMsg where
  | subscribe (type : String) (params : List (String × Jv))
  | unsubscribe (type : String) (params : List (String × Jv))
  | ping

/-- Split a character list on a separator character. -/
def splitCharsOn (sep : Char) : List Char → List Char → List String
  | [], acc => [String.mk acc.reverse]
  | c :: rest, acc =>
    if c = sep then String.mk acc.reverse :: splitCharsOn sep rest []
    else splitCharsOn sep rest (c :: acc)

/-- JS `s.split(sep, limit)` for a one-character separator: split on every
separator, then KEEP ONLY the first `limit` substrings (the remainder is
discarded, not rejoined). -/
def jsSplitLimit (s : String) (sep : Char) (limit : ℕ) : List String :=
  (splitCharsOn sep s.toList []).take limit

/-- The canonical subscription key built by `subscribeToChannel`:
`channel + ":" + JSON.stringify(params)`. -/
def subscriptionKey (channel : String) (params : List (String × String)) : String :=
  channel ++ ":" ++ jsonStringifyFlat params

/-- Params of a subscribe/unsubscribe frame as JSON fields. -/
def wireParams (params : List (String × String)) : List (String × Jv) :=
  params.map fun kv => (kv.1, Jv.str kv.2)

/-- JS `Map.delete` on the association-list model of the registry. -/
def mapDelete (subs : List (String × ℕ)) (k : String) : List (String × ℕ) :=
  subs.filter fun kv => kv.1 != k

/-- JS `Map.set` (replace in place, or append). -/
def mapSet (subs : List (String × ℕ)) (k : String) (v : ℕ) : List (String × ℕ) :=
  if subs.any fun kv => kv.1 == k then
    subs.map fun kv => if kv.1 == k then (kv.1, v) else kv
  else subs ++ [(k, v)]

/-- `subscribeToChannel`: send the subscribe frame and store the callback
under the canonical key.  Returns the new registry and the frames sent. -/
def subscribeToChannel (channel : String) (params : List (String × String)) (callbackId : ℕ)
    (subs : List (String × ℕ)) : List (String × ℕ) × List WireMsg :=
  (mapSet subs (subscriptionKey channel params) callbackId,
   [WireMsg.subscribe channel (wireParams params)])

/-- The unsubscribe closure returned by `subscribeToChannel`: every call
sends the wire unsubscribe frame whenever the socket is open, then deletes
the key — there is no guard against repeated calls. -/
def unsubscribeFromChannel (wsOpen : Bool) (channel : String) (params : List (String × String))
    (subs : List (String × ℕ)) : List (String × ℕ) × List WireMsg :=
  (mapDelete subs (subscriptionKey channel params),
   if wsOpen then [WireMsg.unsubscribe channel (wireParams params)] else [])

/-- The resubscription replay loop in `initializeWebSocket`'s `onopen`
handler: for every registered key, `const [type, paramsStr] =
channel.split(':', 2)`; if both parts are non-empty, `JSON.parse(paramsStr)`
and send the subscribe frame; a parse failure is caught and the entry is
skipped. -/
def resubscribeMessages (subscriptionKeys : List String) : List WireMsg :=
  subscriptionKeys.filterMap fun channel =>
    match jsSplitLimit channel ':' 2 with
    | [t, paramsStr] =>
      if t ≠ "" ∧ paramsStr ≠ "" then
        match jsonParse paramsStr with
        | some params => some (WireMsg.subscribe t (Jv.spreadFields params))
        | none => none
      else none
    | _ => none

/-! ### Reconnect backoff (the `onclose` handler) -/

def MAX_RECONNECT_ATTEMPTS : ℕ := 10

def RECONNECT_DELAY_MS : ℚ := 5000

/-- `RECONNECT_DELAY_MS * Math.pow(1.5, Math.min(reconnectAttempts - 1, 5))`,
where `reconnectAttempts` has already been incremented for this attempt. -/
def reconnectBaseDelay (attempt : ℕ) : ℚ :=
  RECONNECT_DELAY_MS * (3 / 2 : ℚ) ^ (min (attempt - 1) 5)

/-- The scheduled delay: base delay plus the random jitter
(`Math.random() * 1000`, so `0 ≤ jitter < 1000`). -/
def reconnectDelay (attempt : ℕ) (jitter : ℚ) : ℚ :=
  reconnectBaseDelay attempt + jitter

/-- The `onclose` reconnect decision: when the close was not intentional
and attempts remain under the ceiling, increment the counter and schedule
an attempt (returning the new counter); otherwise schedule nothing. -/
def scheduleReconnect (isIntentionalClose : Bool) (reconnectAttempts : ℕ) : Option ℕ :=
  if isIntentionalClose = false ∧ reconnectAttempts < MAX_RECONNECT_ATTEMPTS then
    some (reconnectAttempts + 1)
  else none

/-! ### Pong detection and mid-price processing (`hyperliquidService.ts`) -/

/-- The common prologue `typeof message === 'string' ? JSON.parse(message)
: message`, with a thrown parse error modelled as `none`. -/
def jsResolve (message : Jv) : Option Jv :=
  match message with
  | Jv.str s => jsonParse s
  | v => some v

/-- JS `v != null && typeof v === 'object' && k in v && v[k] === s`. -/
def jvStrFieldEq (v : Jv) (k s : String) : Bool :=
  v.isObjectLike &&
    match v.getField k with
    | some (Jv.str t) => t == s
    | _ => false

/-- `isPongMessage`: parse string input, then test the three documented
pong forms in order; any exception yields `false`. -/
def isPongMessage (message : Jv) : Bool :=
  match jsResolve message with
  | none => false
  | some data =>
    jvStrFieldEq data "type" "pong"
    || jvStrFieldEq data "channel" "pong"
    || (match data with | Jv.str s => s == "pong" | _ => false)

/-- The `asAllMids` cleaner: an object with a `mids` field that is an
object all of whose values are strings; returns the mid map. -/
def asAllMids (v : Jv) : Option (List (String × Jv)) :=
  match v with
  | Jv.obj fields =>
    match fields.lookup "mids" with
    | some (Jv.obj mids) =>
      if mids.all fun kv => match kv.2 with | Jv.str _ => true | _ => false then some mids
      else none
    | _ => none
  | _ => none

/-- `processMidPricesMessage`, threaded through the module-level
`cachedMidPrices` cell: given the current cache and the message, return
the map handed to the caller and the new cache.  Every throw inside the
body is caught and falls back to the cached map. -/
def processMidPricesMessage (cachedMidPrices : List (String × Jv)) (message : Jv) :
    List (String × Jv) × List (String × Jv) :=
  match jsResolve message with
  | none => (cachedMidPrices, cachedMidPrices)
  | some data =>
    if jvStrFieldEq data "channel" "allMids" && data.hasField "data" then
      match data.getField "data" with
      | some dd =>
        match asAllMids dd with
        | some mids => (mids, mids)
        | none =>
          -- lenient fallback: direct access to data.data.mids
          if dd.isObjectLike && dd.hasField "mids" then
            match dd.getField "mids" with
            | some midsObj => (Jv.spreadFields midsObj, Jv.spreadFields midsObj)
            | none => (cachedMidPrices, cachedMidPrices)
          else (cachedMidPrices, cachedMidPrices)
      | none => (cachedMidPrices, cachedMidPrices)
    else if data.isObjectLike && data.hasField "mids" then
      match data.getField "mids" with
      | some midsObj => (Jv.spreadFields midsObj, Jv.spreadFields midsObj)
      | none => (cachedMidPrices, cachedMidPrices)
    else (cachedMidPrices, cachedMidPrices)

/-- The shapes `processMidPricesMessage` recognizes as carrying mid
prices: an `allMids` channel frame with a `data` payload, or an object
with a top-level `mids` field. -/
def isMidPriceShaped (message : Jv) : Bool :=
  match jsResolve message with
  | none => false
  | some data =>
    (jvStrFieldEq data "channel" "allMids" && data.hasField "data")
    || (data.isObjectLike && data.hasField "mids")

/-! ### Account-state data model (`hyperliquidTypes.ts`)

The cleaners fix these shapes; optional fields are `Option`s.  JSON
numbers are rationals, decimal quantities stay the strings the API sends. -/

/-- `asPosition`'s optional `leverage` descriptor. -/
structure LeverageInfo where
  rawUsd : Option String
  type : Option String
  value : Option ℚ
deriving DecidableEq, Repr

/-- `asPosition`'s optional cumulative-funding breakdown. -/
structure CumFunding where
  allTime : Option String
  sinceChange : Option String
  sinceOpen : Option String
deriving DecidableEq, Repr

/-- `asPosition`: one open position. `liquidationPx` is string-or-null. -/
structure Position where
  coin : String
  szi : String
  entryPx : String
  positionValue : String
  unrealizedPnl : String
  returnOnEquity : String
  liquidationPx : Option String
  marginUsed : String
  leverage : Option LeverageInfo
  cumFunding : Option CumFunding
  maxLeverage : Option ℚ
deriving DecidableEq, Repr

/-- `asAssetPosition`: `\x7btype: 'oneWay', position\x7d`. -/
structure AssetPosition where
  type : String
  position : Position
deriving DecidableEq, Repr

/-- `asMarginSummary`. -/
structure MarginSummary where
  accountValue : String
  totalMarginUsed : String
  totalNtlPos : String
  totalRawUsd : String
  leverage : Option String
deriving DecidableEq, Repr

/-- The UI-facing `AccountState`. -/
structure AccountState where
  assetPositions : List AssetPosition
  crossMarginSummary : Option MarginSummary
  marginSummary : Option MarginSummary
  withdrawable : Option String
  crossMaintenanceMarginUsed : Option String
  midPrices : Option (List (String × String))
deriving DecidableEq, Repr

/-- `asWsClearinghouseState`: the push-update subset, all fields
optional. -/
structure WsClearinghouseState where
  crossMarginSummary : Option MarginSummary
  withdrawable : Option String
  assetPositions : Option (List AssetPosition)
deriving DecidableEq, Repr

/-- `asFetchedClearinghouseState`: the REST baseline shape. -/
structure FetchedClearinghouseState where
  assetPositions : List AssetPosition
  crossMarginSummary : MarginSummary
  marginSummary : Option MarginSummary
  withdrawable : String
  crossMaintenanceMarginUsed : Option String
  time : ℚ
deriving DecidableEq, Repr

/-- `processWsClearinghouseData` in `subscribeToUserState`: convert a
WebSocket clearinghouse payload to an `AccountState`.  Note the source
sets `crossMaintenanceMarginUsed: undefined` unconditionally ("Not
provided in WebSocket data") and `marginSummary: undefined`. -/
def processWsClearinghouseData (processedData : WsClearinghouseState) : AccountState :=
  { assetPositions := processedData.assetPositions.getD []
    crossMarginSummary := some (processedData.crossMarginSummary.getD
      { accountValue := "0", totalMarginUsed := "0", totalNtlPos := "0",
        totalRawUsd := "0", leverage := some "0" })
    marginSummary := none
    withdrawable := processedData.withdrawable
    crossMaintenanceMarginUsed := none
    midPrices := none }

/-! ### The reconciliation updater (`MainView.tsx`, `setAccountState`) -/

/-- What the functional state updater hands back to React: the previous
state object itself (reference-stable no-op) or a replacement object. -/
inductive SetStateResult where
  | keepPrev
  | replace (s : AccountState)
deriving DecidableEq, Repr

/-- The `setAccountState` updater of `MainView.tsx`: rule 1 preserves the
previous position list when the update's list is empty and the previous
one is not (spreading the update for every other field); otherwise the
update is compared against the previous state (`JSON.stringify` equality
on the position lists — which on cleaner-produced values coincides with
structural equality — and direct equality on `accountValue`,
`withdrawable` and `leverage` through optional chaining) and the previous
object itself is returned when nothing differs.  With no previous state,
`JSON.stringify(undefined)` never equals a string, so the update is always
taken. -/
def reconcileAccountState (newAccountState : AccountState) (prevAccountState : Option AccountState) :
    SetStateResult :=
  match prevAccountState with
  | some prev =>
    if newAccountState.assetPositions.length = 0 ∧ 0 < prev.assetPositions.length then
      SetStateResult.replace { newAccountState with assetPositions := prev.assetPositions }
    else
      if newAccountState.assetPositions ≠ prev.assetPositions
          ∨ newAccountState.crossMarginSummary.map MarginSummary.accountValue
              ≠ prev.crossMarginSummary.map MarginSummary.accountValue
          ∨ newAccountState.withdrawable ≠ prev.withdrawable
          ∨ newAccountState.crossMarginSummary.bind MarginSummary.leverage
              ≠ prev.crossMarginSummary.bind MarginSummary.leverage then
        SetStateResult.replace newAccountState
      else SetStateResult.keepPrev
  | none => SetStateResult.replace newAccountState

/-- The state React holds after applying the updater. -/
def appliedAccountState (r : SetStateResult) (prev : Option AccountState) : Option AccountState :=
  match r with
  | SetStateResult.keepPrev => prev
  | SetStateResult.replace s => some s

/-! ### Cleaners over JSON values (`hyperliquidTypes.ts`) -/

/-- `asString`. -/
def asStringJv : Jv → Option String
  | Jv.str s => some s
  | _ => none

/-- `asNumber`. -/
def asNumberJv : Jv → Option ℚ
  | Jv.num q => some q
  | _ => none

/-- `asOptional(cleaner)`: `null`/`undefined` become `undefined`, anything
else must satisfy the inner cleaner. -/
def asOptionalJv (clean : Jv → Option α) : Option Jv → Option (Option α)
  | none => some none
  | some Jv.null => some none
  | some v => (clean v).map some

/-- `asArray(cleaner)`. -/
def asArrayJv (clean : Jv → Option α) : Jv → Option (List α)
  | Jv.arr items => items.mapM clean
  | _ => none

/-- `asObject` field access: required field, cleaned. -/
def requiredField (fields : List (String × Jv)) (k : String) (clean : Jv → Option α) : Option α :=
  (fields.lookup k).bind clean

/-- The fields of an object value, or a cleaner failure. -/
def objFields : Jv → Option (List (String × Jv))
  | Jv.obj fields => some fields
  | _ => none

/-- The `leverage` sub-cleaner of `asPosition`. -/
def asLeverageInfoJv (v : Jv) : Option LeverageInfo := do
  let fields ← objFields v
  let rawUsd ← asOptionalJv asStringJv (fields.lookup "rawUsd")
  let type ← asOptionalJv asStringJv (fields.lookup "type")
  let value ← asOptionalJv asNumberJv (fields.lookup "value")
  pure { rawUsd := rawUsd, type := type, value := value }

/-- The `cumFunding` sub-cleaner of `asPosition`. -/
def asCumFundingJv (v : Jv) : Option CumFunding := do
  let fields ← objFields v
  let allTime ← asOptionalJv asStringJv (fields.lookup "allTime")
  let sinceChange ← asOptionalJv asStringJv (fields.lookup "sinceChange")
  let sinceOpen ← asOptionalJv asStringJv (fields.lookup "sinceOpen")
  pure { allTime := allTime, sinceChange := sinceChange, sinceOpen := sinceOpen }

/-- `asPosition`. -/
def asPositionJv (v : Jv) : Option Position := do
  let fields ← objFields v
  let coin ← requiredField fields "coin" asStringJv
  let szi ← requiredField fields "szi" asStringJv
  let entryPx ← requiredField fields "entryPx" asStringJv
  let positionValue ← requiredField fields "positionValue" asStringJv
  let unrealizedPnl ← requiredField fields "unrealizedPnl" asStringJv
  let returnOnEquity ← requiredField fields "returnOnEquity" asStringJv
  -- asEither(asString, asNull)
  let liquidationPx ← match fields.lookup "liquidationPx" with
    | some (Jv.str s) => some (some s)
    | some Jv.null => some none
    | _ => none
  let marginUsed ← requiredField fields "marginUsed" asStringJv
  let leverage ← asOptionalJv asLeverageInfoJv (fields.lookup "leverage")
  let cumFunding ← asOptionalJv asCumFundingJv (fields.lookup "cumFunding")
  let maxLeverage ← asOptionalJv asNumberJv (fields.lookup "maxLeverage")
  pure { coin := coin, szi := szi, entryPx := entryPx, positionValue := positionValue,
         unrealizedPnl := unrealizedPnl, returnOnEquity := returnOnEquity,
         liquidationPx := liquidationPx, marginUsed := marginUsed, leverage := leverage,
         cumFunding := cumFunding, maxLeverage := maxLeverage }

/-- `asAssetPosition`. -/
def asAssetPositionJv (v : Jv) : Option AssetPosition := do
  let fields ← objFields v
  let type ← requiredField fields "type" asStringJv
  let position ← requiredField fields "position" asPositionJv
  pure { type := type, position := position }

/-- `asMarginSummary`. -/
def asMarginSummaryJv (v : Jv) : Option MarginSummary := do
  let fields ← objFields v
  let accountValue ← requiredField fields "accountValue" asStringJv
  let totalMarginUsed ← requiredField fields "totalMarginUsed" asStringJv
  let totalNtlPos ← requiredField fields "totalNtlPos" asStringJv
  let totalRawUsd ← requiredField fields "totalRawUsd" asStringJv
  let leverage ← asOptionalJv asStringJv (fields.lookup "leverage")
  pure { accountValue := accountValue, totalMarginUsed := totalMarginUsed,
         totalNtlPos := totalNtlPos, totalRawUsd := totalRawUsd, leverage := leverage }

/-- `asFetchedClearinghouseState`. -/
def asFetchedClearinghouseStateJv (v : Jv) : Option FetchedClearinghouseState := do
  let fields ← objFields v
  let assetPositions ← requiredField fields "assetPositions" (asArrayJv asAssetPositionJv)
  let crossMarginSummary ← requiredField fields "crossMarginSummary" asMarginSummaryJv
  let marginSummary ← asOptionalJv asMarginSummaryJv (fields.lookup "marginSummary")
  let withdrawable ← requiredField fields "withdrawable" asStringJv
  let crossMaintenanceMarginUsed ← asOptionalJv asStringJv (fields.lookup "crossMaintenanceMarginUsed")
  let time ← requiredField fields "time" asNumberJv
  pure { assetPositions := assetPositions, crossMarginSummary := crossMarginSummary,
         marginSummary := marginSummary, withdrawable := withdrawable,
         crossMaintenanceMarginUsed := crossMaintenanceMarginUsed, time := time }

/-! ### REST baseline fetches -/

/-- The observable outcome of the `fetch` + `response.json()` pipeline:
a parsed body, a non-OK HTTP status, invalid JSON in the body, or a
transport failure. -/
inductive FetchOutcome where
  | ok (body : Jv)
  | httpError (status : ℕ) (text : String)
  | invalidJson (msg : String)
  | networkError (msg : String)

/-- One formatted position of `fetchAccountBalance`'s result. -/
structure BalancePosition where
  coin : String
  size : String
  value : String
  entryPrice : String
  unrealizedPnl : String
  returnOnEquity : String
deriving DecidableEq, Repr

/-- `AccountBalance`, including the `error` property the catch branch
smuggles past the declared interface with an `as` cast. -/
structure AccountBalance where
  accountValue : String
  withdrawable : String
  leverage : String
  positions : List BalancePosition
  error : Option String
deriving DecidableEq, Repr

/-- The default zero-valued structure `fetchAccountBalance` returns for a
missing account and (with the error message attached) for every caught
failure. -/
def zeroBalance (error : Option String) : AccountBalance :=
  { accountValue := "0", withdrawable := "0", leverage := "0", positions := [], error := error }

/-- JS `x || dflt` on a field that the API delivers as a decimal string
(falsy values — absent, `null`, `''`, `0`, `false` — select the
default). -/
def jsStringOr (v : Option Jv) (dflt : String) : String :=
  if Jv.truthy v then
    match v with
    | some (Jv.str s) => s
    | _ => dflt
  else dflt

/-- `fetchAccountBalance`: the promise settles with `Except.error` only if
an exception escaped — which never happens, because the catch branch
"Return[s] a default structure instead of throwing". -/
def fetchAccountBalance (response : FetchOutcome) : Except String AccountBalance :=
  match response with
  | FetchOutcome.httpError status text =>
    Except.ok (zeroBalance (some ("API request failed with status " ++ toString status ++ ": " ++ text)))
  | FetchOutcome.invalidJson msg => Except.ok (zeroBalance (some msg))
  | FetchOutcome.networkError msg => Except.ok (zeroBalance (some msg))
  | FetchOutcome.ok data =>
    if ¬ Jv.truthy (data.getField "crossMarginSummary") ∨ ¬ Jv.truthy (data.getField "assetPositions") then
      Except.ok (zeroBalance none)
    else
      Except.ok
        { accountValue := jsStringOr ((data.getField "crossMarginSummary").bind (Jv.getField · "accountValue")) "0"
          withdrawable := jsStringOr (data.getField "withdrawable") "0"
          leverage := jsStringOr ((data.getField "crossMarginSummary").bind (Jv.getField · "leverage")) "0"
          positions := (match data.getField "assetPositions" with
            | some (Jv.arr items) => items.map fun position =>
                { coin := (if Jv.truthy (position.getField "coin") then
                      jsStringOr (position.getField "coin") ""
                    else
                      jsStringOr ((position.getField "position").bind (Jv.getField · "coin")) "")
                  size := jsStringOr ((position.getField "position").bind (Jv.getField · "szi")) "0"
                  value := jsStringOr ((position.getField "position").bind (Jv.getField · "positionValue")) "0"
                  entryPrice := jsStringOr ((position.getField "position").bind (Jv.getField · "entryPx")) "0"
                  unrealizedPnl := jsStringOr ((position.getField "position").bind (Jv.getField · "unrealizedPnl")) "0"
                  returnOnEquity := jsStringOr ((position.getField "position").bind (Jv.getField · "returnOnEquity")) "0" }
            | _ => [])
          error := none }

/-- `fetchClearinghouseState`: the catch branches absorb the HTTP error,
the invalid body and the transport failure, and the function resolves with
`undefined`; a cleaner failure is likewise caught and logged.  The promise
never rejects — `Except.error` is unreachable. -/
def fetchClearinghouseState (response : FetchOutcome) :
    Except String (Option FetchedClearinghouseState) :=
  match response with
  | FetchOutcome.httpError _ _ => Except.ok none
  | FetchOutcome.invalidJson _ => Except.ok none
  | FetchOutcome.networkError _ => Except.ok none
  | FetchOutcome.ok rawData => Except.ok (asFetchedClearinghouseStateJv rawData)

/-! ### `subscribeToUserState` -/

/-- JS falsiness of the `address` argument (`!address`): missing or
empty. -/
def jsFalsyAddress : Option String → Bool
  | none => true
  | some s => s == ""

/-- The `webData2` subscription key interpolated in `subscribeToUserState`:
`webData2:\x7b"user":"<address>"\x7d`. -/
def webData2Key (formattedAddress : String) : String :=
  "webData2:\x7b\"user\":\"" ++ formattedAddress ++ "\"\x7d"

/-- The observable effects of one `subscribeToUserState` call. -/
structure SubscribeUserStateResult where
  /-- addresses passed to `fetchClearinghouseState` -/
  fetches : List String
  /-- payloads delivered synchronously to `onUpdate` -/
  callbackInvocations : List FetchedClearinghouseState
  /-- keys added to `websocketSubscriptions` -/
  registeredKeys : List String
  /-- wire frames sent -/
  sentMessages : List WireMsg
  /-- the returned unsubscribe closure, acting on a registry and the
  socket-open flag at call time -/
  unsubscribe : List (String × ℕ) → Bool → List (String × ℕ) × List WireMsg

/-- `subscribeToUserState`: with a falsy address it logs and returns the
empty unsubscribe function at once; otherwise it fetches the REST
baseline (delivering it to `onUpdate` when defined), registers
`processUserData` under the `webData2` key, and sends the subscribe frame
when the socket is open. -/
def subscribeToUserState (address : Option String) (fetchOutcome : FetchOutcome)
    (wsOpen : Bool) : SubscribeUserStateResult :=
  if jsFalsyAddress address then
    { fetches := []
      callbackInvocations := []
      registeredKeys := []
      sentMessages := []
      unsubscribe := fun subs _ => (subs, []) }
  else
    let addr := address.getD ""
    let formattedAddress := addr.toLower
    { fetches := [addr]
      callbackInvocations :=
        match fetchClearinghouseState fetchOutcome with
        | Except.ok (some initialData) => [initialData]
        | _ => []
      registeredKeys := [webData2Key formattedAddress]
      sentMessages :=
        if wsOpen then [WireMsg.subscribe "webData2" [("user", Jv.str formattedAddress)]] else []
      unsubscribe := fun subs isOpen =>
        (mapDelete subs (webData2Key formattedAddress),
         if isOpen then [WireMsg.unsubscribe "webData2" [("user", Jv.str formattedAddress)]] else []) }

/-! ## Sample states used as concrete inputs -/

/-- A representative cleaned BTC position. -/
def samplePosition : AssetPosition :=
  { type := "oneWay"
    position :=
      { coin := "BTC", szi := "1.0", entryPx := "50000", positionValue := "50000",
        unrealizedPnl := "0", returnOnEquity := "0", liquidationPx := none,
        marginUsed := "100", leverage := none, cumFunding := none, maxLeverage := none } }

/-- A representative margin summary. -/
def sampleSummary : MarginSummary :=
  { accountValue := "100", totalMarginUsed := "0", totalNtlPos := "0",
    totalRawUsd := "100", leverage := some "1" }

/-- A previous account state holding one position, `withdrawable = "1"` and
a known `crossMaintenanceMarginUsed = "5.0"`. -/
def prevWithPosition : AccountState :=
  { assetPositions := [samplePosition], crossMarginSummary := some sampleSummary,
    marginSummary := none, withdrawable := some "1",
    crossMaintenanceMarginUsed := some "5.0", midPrices := none }

/-- An incoming update with an empty position list and a changed
`withdrawable`. -/
def emptyPositionsUpdate : AccountState :=
  { assetPositions := [], crossMarginSummary := some sampleSummary,
    marginSummary := none, withdrawable := some "2",
    crossMaintenanceMarginUsed := none, midPrices := none }

/-- An incoming update with the same position list, a changed
`withdrawable`, and `crossMaintenanceMarginUsed` absent. -/
def updateWithoutCmmu : AccountState :=
  { assetPositions := [samplePosition], crossMarginSummary := some sampleSummary,
    marginSummary := none, withdrawable := some "2",
    crossMaintenanceMarginUsed := none, midPrices := none }

/-- The parameters of a user-keyed channel subscription. -/
def userParams : List (String × String) := [("user", "0xaa")]

/-! ## Claim theorems -/

/-! Sanity checks of the JSON embedding. -/

example : jsonStringifyFlat [] = "\x7b\x7d" := by rfl
example : jsonStringifyFlat [("user", "0xaa")] = "\x7b\"user\":\"0xaa\"\x7d" := by rfl
example : jsonParse "pong" = none := by rfl
example : jsonParse "\"pong\"" = some (Jv.str "pong") := by rfl
example : jsonParse "\x7b\"user\"" = none := by rfl
example : jsonParse "\x7b\"user\":\"0xaa\"\x7d" = some (Jv.obj [("user", Jv.str "0xaa")]) := by rfl
example : jsonParse "\x7b\"channel\":\"pong\"\x7d" = some (Jv.obj [("channel", Jv.str "pong")]) := by
  rfl

/-- C1.  After a reconnect, the `onopen` replay loop is meant to resend
one subscribe frame per registered entry.  Evaluating it at the failing
input — the two user-keyed entries the code itself registers
(`webData2:\x7b"user":...\x7d` and `clearinghouseState:\x7b"user":...\x7d`)
— shows it resends NOTHING: `split(':', 2)` truncates the serialized
params at the colon inside the JSON (`\x7b"user"`), `JSON.parse` throws,
and both entries are skipped.  A parameterless key such as
`allMeta:\x7b\x7d` is the only shape that survives. -/
theorem resubscribe_replay_drops_user_entries :
    subscriptionKey "webData2" userParams = "webData2:\x7b\"user\":\"0xaa\"\x7d" ∧
    jsSplitLimit (subscriptionKey "webData2" userParams) ':' 2 = ["webData2", "\x7b\"user\""] ∧
    resubscribeMessages
        [subscriptionKey "webData2" userParams,
         subscriptionKey "clearinghouseState" userParams] = [] ∧
    resubscribeMessages [subscriptionKey "allMeta" []]
        = [WireMsg.subscribe "allMeta" []] :=
  ⟨rfl, rfl, rfl, rfl⟩

/-- C2.  When the incoming update carries no positions but the previous
state has at least one, the reconciliation keeps the previous position
list and takes every other (account-level) field from the incoming
update. -/
theorem empty_position_preservation (newA prev : AccountState)
    (hEmpty : newA.assetPositions = []) (hPrev : prev.assetPositions ≠ []) :
    reconcileAccountState newA (some prev) =
      SetStateResult.replace { newA with assetPositions := prev.assetPositions } := by
  have h1 : newA.assetPositions.length = 0 := by rw [hEmpty]; rfl
  have h2 : 0 < prev.assetPositions.length := List.length_pos.mpr hPrev
  simp only [reconcileAccountState]
  rw [if_pos ⟨h1, h2⟩]

/-- C2 witness: a previous state with one position and an update with an
empty list and a changed `withdrawable`. -/
theorem empty_position_preservation_witness :
    reconcileAccountState emptyPositionsUpdate (some prevWithPosition) =
      SetStateResult.replace
        { emptyPositionsUpdate with assetPositions := prevWithPosition.assetPositions } :=
  empty_position_preservation emptyPositionsUpdate prevWithPosition rfl (by decide)

/-- C3 counterexample.  The claim states that whenever a compared field
differs the updater returns a new state built from the incoming update's
fields.  At an update with an empty position list against a previous
state with one position (and a changed `withdrawable`), the updater does
return a new object, but with the PREVIOUS position list spliced in — not
the incoming update's fields. -/
theorem reconcile_replace_counterexample :
    reconcileAccountState emptyPositionsUpdate (some prevWithPosition)
        = SetStateResult.replace
            { emptyPositionsUpdate with assetPositions := prevWithPosition.assetPositions } ∧
    reconcileAccountState emptyPositionsUpdate (some prevWithPosition)
        ≠ SetStateResult.replace emptyPositionsUpdate := by
  decide

/-- C3 (amended).  If the compared fields (position list, `accountValue`,
`withdrawable`, `leverage`) all agree, the updater returns the previous
object itself; if any differs AND the empty-position preservation rule
does not apply (the update's list is nonempty or the previous list is
empty), it returns a new object built from the incoming update's
fields. -/
theorem reconcile_reference_stability (newA prev : AccountState) :
    (newA.assetPositions = prev.assetPositions →
      newA.crossMarginSummary.map MarginSummary.accountValue
          = prev.crossMarginSummary.map MarginSummary.accountValue →
      newA.withdrawable = prev.withdrawable →
      newA.crossMarginSummary.bind MarginSummary.leverage
          = prev.crossMarginSummary.bind MarginSummary.leverage →
      reconcileAccountState newA (some prev) = SetStateResult.keepPrev) ∧
    ((newA.assetPositions ≠ prev.assetPositions
        ∨ newA.crossMarginSummary.map MarginSummary.accountValue
            ≠ prev.crossMarginSummary.map MarginSummary.accountValue
        ∨ newA.withdrawable ≠ prev.withdrawable
        ∨ newA.crossMarginSummary.bind MarginSummary.leverage
            ≠ prev.crossMarginSummary.bind MarginSummary.leverage) →
      (newA.assetPositions ≠ [] ∨ prev.assetPositions = []) →
      reconcileAccountState newA (some prev) = SetStateResult.replace newA) := by
  constructor
  · intro h1 h2 h3 h4
    have hc1 : ¬(newA.assetPositions.length = 0 ∧ 0 < prev.assetPositions.length) := by
      rintro ⟨ha, hb⟩
      rw [h1] at ha
      omega
    have hc2 : ¬(newA.assetPositions ≠ prev.assetPositions
        ∨ newA.crossMarginSummary.map MarginSummary.accountValue
            ≠ prev.crossMarginSummary.map MarginSummary.accountValue
        ∨ newA.withdrawable ≠ prev.withdrawable
        ∨ newA.crossMarginSummary.bind MarginSummary.leverage
            ≠ prev.crossMarginSummary.bind MarginSummary.leverage) := by
      rintro (h | h | h | h)
      exacts [h h1, h h2, h h3, h h4]
    simp only [reconcileAccountState]
    rw [if_neg hc1, if_neg hc2]
  · intro hd hg
    have hc1 : ¬(newA.assetPositions.length = 0 ∧ 0 < prev.assetPositions.length) := by
      rintro ⟨ha, hb⟩
      rcases hg with hne | hpe
      · exact hne (List.length_eq_zero.mp ha)
      · rw [hpe] at hb
        simp at hb
    simp only [reconcileAccountState]
    rw [if_neg hc1, if_pos hd]

/-- C3 witness: an identical update yields the previous reference, and an
update with a changed `withdrawable` (nonempty position list) yields the
incoming object. -/
theorem reconcile_reference_stability_witness :
    reconcileAccountState prevWithPosition (some prevWithPosition) = SetStateResult.keepPrev ∧
    reconcileAccountState updateWithoutCmmu (some prevWithPosition)
        = SetStateResult.replace updateWithoutCmmu := by
  constructor
  · exact (reconcile_reference_stability prevWithPosition prevWithPosition).1 rfl rfl rfl rfl
  · exact (reconcile_reference_stability updateWithoutCmmu prevWithPosition).2
      (by decide) (by decide)

/-- C4 counterexample.  An update with `crossMaintenanceMarginUsed`
absent and a changed `withdrawable` replaces the state wholesale: the
reconciled value of the field is absent, not the previous state's known
`"5.0"`. -/
theorem cmmu_not_preserved_counterexample :
    (appliedAccountState (reconcileAccountState updateWithoutCmmu (some prevWithPosition))
        (some prevWithPosition)).map AccountState.crossMaintenanceMarginUsed = some none ∧
    prevWithPosition.crossMaintenanceMarginUsed = some "5.0" := by
  decide

/-- C4 (amended).  The WebSocket conversion always sets
`crossMaintenanceMarginUsed` to absent, and whenever the reconciliation
produces a new state object from such an update, that object's field is
absent; the previous value survives only through the no-op branch that
returns the previous object itself. -/
theorem cmmu_reset_on_new_state (d : WsClearinghouseState) (prev : Option AccountState)
    (s : AccountState) :
    (processWsClearinghouseData d).crossMaintenanceMarginUsed = none ∧
    (reconcileAccountState (processWsClearinghouseData d) prev = SetStateResult.replace s →
      s.crossMaintenanceMarginUsed = none) := by
  refine ⟨rfl, fun h => ?_⟩
  cases prev with
  | none =>
    simp only [reconcileAccountState] at h
    cases h
    rfl
  | some p =>
    simp only [reconcileAccountState] at h
    split at h
    · injection h with h2
      rw [← h2]
      rfl
    · split at h
      · injection h with h2
        rw [← h2]
        rfl
      · cases h

/-- C4 witness: a bare WebSocket payload reconciled against no previous
state. -/
theorem cmmu_reset_on_new_state_witness :
    (processWsClearinghouseData ⟨none, some "1", none⟩).crossMaintenanceMarginUsed = none ∧
    (processWsClearinghouseData ⟨none, some "1", none⟩).crossMaintenanceMarginUsed = none :=
  ⟨(cmmu_reset_on_new_state ⟨none, some "1", none⟩ none
      (processWsClearinghouseData ⟨none, some "1", none⟩)).1,
   (cmmu_reset_on_new_state ⟨none, some "1", none⟩ none
      (processWsClearinghouseData ⟨none, some "1", none⟩)).2 rfl⟩

/-- C5.  The backoff: the base delay (5000ms times 1.5 per attempt,
exponent capped at 5) is non-decreasing in the attempt counter; while the
base is still below the cap the full jittered delay is non-decreasing
from each attempt to the next, for any jitters in [0, 1000); no reconnect
is scheduled at or past the ceiling of 10; and from attempt 6 on the base
delay sits at the cap. -/
theorem reconnect_backoff_growth_and_ceiling :
    (∀ k : ℕ, reconnectBaseDelay k ≤ reconnectBaseDelay (k + 1)) ∧
    (∀ (k : ℕ) (j j' : ℚ), 1 ≤ k → k ≤ 5 → 0 ≤ j → j < 1000 → 0 ≤ j' →
      reconnectDelay k j ≤ reconnectDelay (k + 1) j') ∧
    (∀ (b : Bool) (a : ℕ), MAX_RECONNECT_ATTEMPTS ≤ a → scheduleReconnect b a = none) ∧
    (∀ k : ℕ, 6 ≤ k → reconnectBaseDelay k = RECONNECT_DELAY_MS * (3 / 2 : ℚ) ^ 5) := by
  refine ⟨?_, ?_, ?_, ?_⟩
  · intro k
    unfold reconnectBaseDelay RECONNECT_DELAY_MS
    have hm : min (k - 1) 5 ≤ min (k + 1 - 1) 5 := by omega
    have hp := pow_le_pow_right₀ (by norm_num : (1 : ℚ) ≤ 3 / 2) hm
    nlinarith [hp]
  · intro k j j' hk1 hk5 hj0 hj hj'
    obtain ⟨m, rfl⟩ : ∃ m, k = m + 1 := ⟨k - 1, by omega⟩
    unfold reconnectDelay reconnectBaseDelay RECONNECT_DELAY_MS
    have e1 : min (m + 1 - 1) 5 = m := by omega
    have e2 : min (m + 1 + 1 - 1) 5 = m + 1 := by omega
    rw [e1, e2, pow_succ]
    have hx : (1 : ℚ) ≤ (3 / 2 : ℚ) ^ m := one_le_pow₀ (by norm_num)
    nlinarith [hx]
  · intro b a h
    have hmax : MAX_RECONNECT_ATTEMPTS = 10 := rfl
    unfold scheduleReconnect
    rw [if_neg]
    rintro ⟨-, hlt⟩
    omega
  · intro k hk
    unfold reconnectBaseDelay
    have : min (k - 1) 5 = 5 := by omega
    rw [this]

/-- C5 witness: delays at attempts 2 and 3 with extreme jitters, the
ceiling at 10, and the cap from attempt 7. -/
theorem reconnect_backoff_growth_and_ceiling_witness :
    reconnectBaseDelay 3 ≤ reconnectBaseDelay 4 ∧
    reconnectDelay 2 999 ≤ reconnectDelay 3 0 ∧
    scheduleReconnect false 10 = none ∧
    reconnectBaseDelay 7 = RECONNECT_DELAY_MS * (3 / 2 : ℚ) ^ 5 :=
  ⟨reconnect_backoff_growth_and_ceiling.1 3,
   reconnect_backoff_growth_and_ceiling.2.1 2 999 0 (by norm_num) (by norm_num)
     (by norm_num) (by norm_num) (by norm_num),
   reconnect_backoff_growth_and_ceiling.2.2.1 false 10 (le_refl 10),
   reconnect_backoff_growth_and_ceiling.2.2.2 7 (by norm_num)⟩

/-- C6.  Evaluating `isPongMessage` at the three documented pong
encodings: the two object forms are accepted, but the bare wire text
`pong` is NOT — `JSON.parse('pong')` throws before the `data === 'pong'`
comparison is reached, so the function returns `false` and the liveness
timestamp is not reset (only the quoted JSON string `"pong"`, which the
upstream never sends, would reach that branch). -/
theorem pong_decoding_at_documented_forms :
    isPongMessage (Jv.str "pong") = false ∧
    isPongMessage (Jv.str "\x7b\"channel\":\"pong\"\x7d") = true ∧
    isPongMessage (Jv.str "\x7b\"type\":\"pong\"\x7d") = true ∧
    isPongMessage (Jv.str "\"pong\"") = true :=
  ⟨rfl, rfl, rfl, rfl⟩

/-- C7 counterexample.  Calling the unsubscribe closure a second time
with the socket open sends a second wire-level unsubscribe frame — the
claim says it must not. -/
theorem double_unsubscribe_counterexample :
    (unsubscribeFromChannel true "webData2" userParams
        (unsubscribeFromChannel true "webData2" userParams
          [(subscriptionKey "webData2" userParams, 0)]).1).2
      = [WireMsg.unsubscribe "webData2" (wireParams userParams)] ∧
    [WireMsg.unsubscribe "webData2" (wireParams userParams)] ≠ ([] : List WireMsg) := by
  exact ⟨rfl, by simp⟩

/-- C7 (amended).  A second call to the unsubscribe closure raises no
error and leaves the registry exactly as the first call left it, but it
repeats the first call's wire effect: whenever the socket is open it
sends the same unsubscribe frame again. -/
theorem double_unsubscribe_effect (wsOpen : Bool) (channel : String)
    (params : List (String × String)) (subs : List (String × ℕ)) :
    ((unsubscribeFromChannel wsOpen channel params
        (unsubscribeFromChannel wsOpen channel params subs).1).1
      = (unsubscribeFromChannel wsOpen channel params subs).1)
    ∧ ((unsubscribeFromChannel wsOpen channel params
        (unsubscribeFromChannel wsOpen channel params subs).1).2
      = (unsubscribeFromChannel wsOpen channel params subs).2) := by
  constructor
  · simp [unsubscribeFromChannel, mapDelete, List.filter_filter]
  · rfl

/-- C8 counterexample.  A failing REST baseline fetch does not surface an
error value or rejection: `fetchAccountBalance` resolves successfully
with the zero-valued default structure, and `fetchClearinghouseState`
resolves successfully with `undefined`. -/
theorem fetch_error_absorbed_counterexample :
    fetchAccountBalance (FetchOutcome.networkError "Failed to fetch")
        = Except.ok (zeroBalance (some "Failed to fetch")) ∧
    fetchClearinghouseState (FetchOutcome.networkError "Failed to fetch") = Except.ok none ∧
    fetchAccountBalance (FetchOutcome.httpError 500 "oops")
        = Except.ok (zeroBalance (some "API request failed with status 500: oops")) :=
  ⟨rfl, rfl, rfl⟩

/-- C8 (amended).  Every baseline-fetch failure (non-OK status, network
error, unparseable body) is absorbed: `fetchAccountBalance` resolves with
the default zero structure (the message only smuggled in an `error`
property outside the declared interface) and `fetchClearinghouseState`
resolves with `undefined`; neither ever rejects. -/
theorem fetch_error_absorption (status : ℕ) (text msg : String) :
    fetchAccountBalance (FetchOutcome.httpError status text)
        = Except.ok (zeroBalance
            (some ("API request failed with status " ++ toString status ++ ": " ++ text)))
    ∧ fetchAccountBalance (FetchOutcome.networkError msg) = Except.ok (zeroBalance (some msg))
    ∧ fetchAccountBalance (FetchOutcome.invalidJson msg) = Except.ok (zeroBalance (some msg))
    ∧ fetchClearinghouseState (FetchOutcome.httpError status text) = Except.ok none
    ∧ fetchClearinghouseState (FetchOutcome.networkError msg) = Except.ok none
    ∧ fetchClearinghouseState (FetchOutcome.invalidJson msg) = Except.ok none :=
  ⟨rfl, rfl, rfl, rfl, rfl, rfl⟩

/-- C9.  `processMidPricesMessage` is total by construction (every throw
inside is caught), and on any input that is not a recognizable mid-price
message — no `allMids` channel payload and no top-level `mids` field,
including unparseable strings — it returns the cached map and leaves the
cache unchanged. -/
theorem processMidPricesMessage_cache_fallback (cache : List (String × Jv)) (message : Jv)
    (h : isMidPriceShaped message = false) :
    processMidPricesMessage cache message = (cache, cache) := by
  unfold isMidPriceShaped at h
  unfold processMidPricesMessage
  cases hr : jsResolve message with
  | none => simp only [hr]
  | some data =>
    rw [hr] at h
    simp only [hr]
    simp only [Bool.or_eq_false_iff, Bool.and_eq_false_iff] at h
    have hA : (jvStrFieldEq data "channel" "allMids" && data.hasField "data") = false := by
      rcases h.1 with h1 | h1 <;> simp [h1]
    have hB : (data.isObjectLike && data.hasField "mids") = false := by
      rcases h.2 with h2 | h2 <;> simp [h2]
    rw [hA, hB]
    simp

/-- C9 witness: an unparseable frame against a non-empty cache. -/
theorem processMidPricesMessage_cache_fallback_witness :
    isMidPriceShaped (Jv.str "not json") = false ∧
    processMidPricesMessage [("BTC", Jv.str "50000")] (Jv.str "not json")
        = ([("BTC", Jv.str "50000")], [("BTC", Jv.str "50000")]) :=
  ⟨rfl, processMidPricesMessage_cache_fallback [("BTC", Jv.str "50000")] (Jv.str "not json") rfl⟩

/-- C10.  With a missing or empty address, `subscribeToUserState`
performs no REST fetch, sends no wire frame, registers nothing, never
invokes the callback, and resolves to a no-op unsubscribe function. -/
theorem subscribeToUserState_falsy_address_noop (address : Option String)
    (fetchOutcome : FetchOutcome) (wsOpen : Bool)
    (h : jsFalsyAddress address = true) :
    (subscribeToUserState address fetchOutcome wsOpen).fetches = [] ∧
    (subscribeToUserState address fetchOutcome wsOpen).callbackInvocations = [] ∧
    (subscribeToUserState address fetchOutcome wsOpen).registeredKeys = [] ∧
    (subscribeToUserState address fetchOutcome wsOpen).sentMessages = [] ∧
    ∀ (subs : List (String × ℕ)) (isOpen : Bool),
      (subscribeToUserState address fetchOutcome wsOpen).unsubscribe subs isOpen = (subs, []) := by
  unfold subscribeToUserState
  rw [if_pos h]
  exact ⟨rfl, rfl, rfl, rfl, fun _ _ => rfl⟩

/-- C10 witness: the empty address with the socket open and a failing
fetch environment. -/
theorem subscribeToUserState_falsy_address_noop_witness :
    jsFalsyAddress (some "") = true ∧
    (subscribeToUserState (some "") (FetchOutcome.networkError "down") true).fetches = [] ∧
    (subscribeToUserState (some "") (FetchOutcome.networkError "down") true).callbackInvocations
        = [] ∧
    (subscribeToUserState (some "") (FetchOutcome.networkError "down") true).registeredKeys = [] ∧
    (subscribeToUserState (some "") (FetchOutcome.networkError "down") true).sentMessages = [] ∧
    (subscribeToUserState (some "") (FetchOutcome.networkError "down") true).unsubscribe
        [("k", 1)] true = ([("k", 1)], []) := by
  have h := subscribeToUserState_falsy_address_noop (some "") (FetchOutcome.networkError "down")
    true rfl
  exact ⟨rfl, h.1, h.2.1, h.2.2.1, h.2.2.2.1, h.2.2.2.2 [("k", 1)] true⟩
